import Mathlib

/-!
Shallow embedding of the AWS Organizations management core of this
repository (plugins/module_utils/organization.py and the organization_*
modules).  Service calls are modelled by explicit response environments;
each operation is a pure function from its environment and arguments to a
result recording the outcome, the mutating calls it issued, and the
warnings it emitted.  External collaborator helpers imported from the
amazon.aws collection (compare_aws_tags, compare_policies) are modelled
from the spec's contract for them, as noted on their definitions.
-/

namespace Org

/-- Error codes a modelled service call can answer with. -/
inductive ErrCode where
  | accessDenied
  | policyNotFound
  | policyNotAttached
  | ouNotFound
  | other
deriving DecidableEq, Repr

/-- A modelled service response: either a value or a typed error. -/
inductive SvcResp (α : Type) where
  | ok : α → SvcResp α
  | err : ErrCode → SvcResp α
deriving DecidableEq, Repr

/-- Outcome of a modelled operation: a normal return value, a hard failure
(`module.fail_json` / `fail_json_aws`, which aborts the module run), or an
uncaught Python exception escaping the function (a crash, distinct from a
clean hard failure). -/
inductive Outcome (α : Type) where
  | ok : α → Outcome α
  | fail : String → Outcome α
  | uncaught : ErrCode → Outcome α
deriving DecidableEq, Repr

/-- Ansible tag mappings: association lists with the keys of a Python dict
(callers maintain key uniqueness, stated as a hypothesis where needed). -/
abbrev TagMap := List (String × String)

/-! ### JSON documents (for policy content)

Python's `json.loads` is an external collaborator; policy content is
modelled as the structured JSON document it yields, so whitespace in the
raw text is already gone and only structure (including object key order)
remains. -/

inductive Json where
  | null : Json
  | bool : Bool → Json
  | num : Int → Json
  | str : String → Json
  | arr : List Json → Json
  | obj : List (String × Json) → Json
deriving Repr

/-- Lexicographic Boolean order on character lists (by code point), used as
the canonical key order when sorting JSON object fields. -/
def charsLe : List Char → List Char → Bool
  | [], _ => true
  | _ :: _, [] => false
  | a :: as, b :: bs =>
    if a.toNat < b.toNat then true
    else if b.toNat < a.toNat then false
    else charsLe as bs

/-- Boolean lexicographic order on strings. -/
def strLe (a b : String) : Bool := charsLe a.data b.data

/-- Insertion into a key-sorted association list, used to normalize JSON
object key order. -/
def insertByKey (kv : String × Json) : List (String × Json) → List (String × Json)
  | [] => [kv]
  | hd :: tl =>
    if strLe kv.1 hd.1 then kv :: hd :: tl else hd :: insertByKey kv tl

/-- Insertion sort of object fields by key. -/
def sortByKey : List (String × Json) → List (String × Json)
  | [] => []
  | hd :: tl => insertByKey hd (sortByKey tl)

mutual

/-- Recursively sort every object's fields by key, giving a canonical form
for JSON-semantic comparison. -/
def Json.normalize : Json → Json
  | .null => .null
  | .bool b => .bool b
  | .num n => .num n
  | .str s => .str s
  | .arr xs => .arr (Json.normalizeList xs)
  | .obj fs => .obj (sortByKey (Json.normalizeFields fs))

def Json.normalizeList : List Json → List Json
  | [] => []
  | x :: xs => x.normalize :: Json.normalizeList xs

def Json.normalizeFields : List (String × Json) → List (String × Json)
  | [] => []
  | (k, v) :: fs => (k, v.normalize) :: Json.normalizeFields fs

end

mutual

/-- Structural Boolean equality on JSON documents. -/
def Json.beq : Json → Json → Bool
  | .null, .null => true
  | .bool a, .bool b => a == b
  | .num a, .num b => a == b
  | .str a, .str b => a == b
  | .arr a, .arr b => Json.beqList a b
  | .obj a, .obj b => Json.beqFields a b
  | _, _ => false

def Json.beqList : List Json → List Json → Bool
  | [], [] => true
  | a :: as, b :: bs => Json.beq a b && Json.beqList as bs
  | _, _ => false

def Json.beqFields : List (String × Json) → List (String × Json) → Bool
  | [], [] => true
  | (ka, va) :: as, (kb, vb) :: bs => ka == kb && Json.beq va vb && Json.beqFields as bs
  | _, _ => false

end

instance : BEq Json := ⟨Json.beq⟩

/-- Modelled from the spec: `compare_policies` from the external amazon.aws
collection.  Compares two parsed JSON policy documents semantically —
object key order is irrelevant — and returns `true` exactly when they
differ (a staged change). -/
def compare_policies (old_policy new_policy : Json) : Bool :=
  !(Json.beq old_policy.normalize new_policy.normalize)

/-- Modelled from the spec: `compare_aws_tags` from the external amazon.aws
collection.  Returns `(tags_to_set, tags_to_delete)`: `tags_to_set` is the
desired pairs whose key is absent from the observed mapping or mapped to a
different value; `tags_to_delete` is the observed keys absent from the
desired mapping when `purge_tags` is set, and empty otherwise. -/
def compare_aws_tags (current_tags new_tags : TagMap) (purge_tags : Bool) :
    TagMap × List String :=
  let tags_to_set := new_tags.filter fun kv => current_tags.lookup kv.1 ≠ some kv.2
  let tags_to_delete :=
    if purge_tags then
      (current_tags.map Prod.fst).filter fun k => (new_tags.lookup k).isNone
    else []
  (tags_to_set, tags_to_delete)

/-- Python truthiness of an optional string argument: `None` and the empty
string are falsy (`if name:` in the source). -/
def truthy : Option String → Bool
  | none => false
  | some s => !s.isEmpty

/-! ### Policies (class `Policies` in organization.py) -/

/-- The `PolicySummary` block of a policy, as the Organizations service
returns it (camel-case dict keys become field names). -/
structure PolicySummary where
  Id : String
  Name : String
  Description : String
deriving DecidableEq, Repr

/-- The full policy detail from `describe_policy` (`Content` already parsed
by the `json.loads` collaborator). -/
structure PolicyDetail where
  PolicySummary : PolicySummary
  Content : Json
deriving Repr

/-- An attachment target as the service returns it.  The dict key `Type`
is modelled as the field `TargetType` (`Type` is reserved in Lean). -/
structure Target where
  TargetId : String
  Arn : String
  Name : String
  TargetType : String
deriving DecidableEq, Repr

/-- Snake-case rendering of a target, the image of the external
`camel_dict_to_snake_dict` collaborator on a target dict. -/
structure TargetSnake where
  target_id : String
  arn : String
  name : String
  target_type : String
deriving DecidableEq, Repr

/-- `camel_dict_to_snake_dict` (external ansible collaborator) restricted
to target dicts: renames each key to snake case. -/
def camel_target_to_snake (t : Target) : TargetSnake :=
  { target_id := t.TargetId, arn := t.Arn, name := t.Name, target_type := t.TargetType }

/-- `Policies._TYPE_MAPPING.get(policy_type, policy_type)`: maps the
user-facing aliases (and `None`) to API enum values, passing anything else
through unchanged. -/
def TYPE_MAPPING : Option String → String
  | none => "SERVICE_CONTROL_POLICY"
  | some "service_control" => "SERVICE_CONTROL_POLICY"
  | some "aiservices_opt_out" => "AISERVICES_OPT_OUT_POLICY"
  | some "backup" => "BACKUP_POLICY"
  | some "tag" => "TAG_POLICY"
  | some s => s

/-- The changes dict staged by `update_policy` (a key is present exactly
when the corresponding attribute is staged for change). -/
structure UpdateChanges where
  Name : Option String
  Description : Option String
  Content : Option Json
deriving Repr

/-- `if not changes:` in the source — the staged-changes dict is empty. -/
def UpdateChanges.isEmpty (c : UpdateChanges) : Bool :=
  c.Name.isNone && c.Description.isNone && c.Content.isNone

/-- Mutating service calls the modelled operations can issue. -/
inductive MutCall where
  | updateCall (policyId : String) (changes : UpdateChanges)
  | createCall (name : String) (content : Json) (description : String) (ptype : String)
  | tagCall (resourceId : String) (tags : TagMap)
  | untagCall (resourceId : String) (tagKeys : List String)
  | detachCall (policyId : String) (targetId : String)
  | deleteCall (policyId : String)
deriving Repr

/-- Result of a modelled operation: outcome, the mutating calls issued to
the service (in order), and the warnings emitted. -/
structure OpResult (α : Type) where
  result : Outcome α
  calls : List MutCall
  warnings : List String
deriving Repr

/-- Service responses consumed by `Policies.update_policy`. -/
structure UpdatePolicyEnv where
  describePolicy : SvcResp PolicyDetail
  updatePolicy : SvcResp Unit

/-- The staged-changes computation of `Policies.update_policy`: `Name` and
`Description` are staged on plain string inequality guarded by Python
truthiness of the supplied value, `Content` on a `compare_policies`
difference of the parsed JSON documents. -/
def update_changes (policy_detail : PolicyDetail) (name : Option String)
    (content : Option Json) (description : Option String) : UpdateChanges :=
  let nameChange : Option String :=
    match name with
    | some n =>
      if !n.isEmpty && n ≠ policy_detail.PolicySummary.Name then some n else none
    | none => none
  let descriptionChange : Option String :=
    match description with
    | some d =>
      if !d.isEmpty && d ≠ policy_detail.PolicySummary.Description then some d else none
    | none => none
  let contentChange : Option Json :=
    match content with
    | some new_content =>
      if compare_policies policy_detail.Content new_content then some new_content else none
    | none => none
  { Name := nameChange, Description := descriptionChange, Content := contentChange }

/-- `Policies.update_policy`: describe the current policy, stage the
changes with `update_changes`, and issue a single update call unless
nothing is staged or check mode is active. -/
def update_policy (env : UpdatePolicyEnv) (check_mode : Bool) (policy : String)
    (name : Option String) (content : Option Json) (description : Option String) :
    OpResult Bool :=
  match env.describePolicy with
  | .err _ =>
    { result := .fail ("Failed to describe policy " ++ policy), calls := [], warnings := [] }
  | .ok policy_detail =>
    let changes : UpdateChanges := update_changes policy_detail name content description
    if changes.isEmpty then
      { result := .ok false, calls := [], warnings := [] }
    else if check_mode then
      { result := .ok true, calls := [], warnings := [] }
    else
      match env.updatePolicy with
      | .err _ =>
        { result := .fail "Failed to update policy",
          calls := [.updateCall policy changes], warnings := [] }
      | .ok _ =>
        { result := .ok true, calls := [.updateCall policy changes], warnings := [] }

/-- Service responses consumed by `Policies.create_policy`. -/
structure CreatePolicyEnv where
  createPolicy : SvcResp PolicySummary
  tagResource : SvcResp Unit

/-- `Policies.create_policy`: map the policy type through the alias table,
short-circuit in check mode, create, then tag in a separate call; a
failure of either call is a hard failure (no rollback of the create). -/
def create_policy (env : CreatePolicyEnv) (check_mode : Bool) (name : String)
    (content : Json) (policy_type : Option String) (description : String)
    (tags : Option TagMap) : OpResult (Bool × Option String) :=
  let ptype := TYPE_MAPPING policy_type
  if check_mode then
    { result := .ok (true, none), calls := [], warnings := [] }
  else
    let tags := tags.getD []
    match env.createPolicy with
    | .err _ =>
      { result := .fail "Failed to create policy",
        calls := [.createCall name content description ptype], warnings := [] }
    | .ok created_summary =>
      match env.tagResource with
      | .err _ =>
        { result := .fail "Failed to create policy",
          calls := [.createCall name content description ptype,
                    .tagCall created_summary.Id tags],
          warnings := [] }
      | .ok _ =>
        { result := .ok (true, some created_summary.Id),
          calls := [.createCall name content description ptype,
                    .tagCall created_summary.Id tags],
          warnings := [] }

/-- Service responses consumed by `Policies.update_policy_tags`. -/
structure UpdateTagsEnv where
  listTags : SvcResp TagMap
  tagResource : SvcResp Unit
  untagResource : SvcResp Unit

/-- `Policies.update_policy_tags`: list current tags, diff with
`compare_aws_tags`, no-op when the diff is empty, short-circuit in check
mode, else set the new tags before deleting the purged ones. -/
def update_policy_tags (env : UpdateTagsEnv) (check_mode : Bool) (policy_id : String)
    (tags : Option TagMap) (purge_tags : Bool) : OpResult Bool :=
  match tags with
  | none => { result := .ok false, calls := [], warnings := [] }
  | some tags =>
    match env.listTags with
    | .err _ => { result := .fail "Failed to list tags", calls := [], warnings := [] }
    | .ok old_tags =>
      let diff := compare_aws_tags old_tags tags purge_tags
      let tags_to_set := diff.1
      let tags_to_delete := diff.2
      if tags_to_delete.isEmpty && tags_to_set.isEmpty then
        { result := .ok false, calls := [], warnings := [] }
      else if check_mode then
        { result := .ok true, calls := [], warnings := [] }
      else
        let setCalls := if tags_to_set.isEmpty then [] else [MutCall.tagCall policy_id tags_to_set]
        let setOutcome := if tags_to_set.isEmpty then SvcResp.ok () else env.tagResource
        match setOutcome with
        | .err _ =>
          { result := .fail "Failed to set tags", calls := setCalls, warnings := [] }
        | .ok _ =>
          let delCalls :=
            if tags_to_delete.isEmpty then [] else [MutCall.untagCall policy_id tags_to_delete]
          let delOutcome := if tags_to_delete.isEmpty then SvcResp.ok () else env.untagResource
          match delOutcome with
          | .err _ =>
            { result := .fail "Failed to remove tags", calls := setCalls ++ delCalls,
              warnings := [] }
          | .ok _ =>
            { result := .ok true, calls := setCalls ++ delCalls, warnings := [] }

/-- The merged view `Policies.describe_policy` returns: the base detail
plus the `Tags` key, plus the `Targets` key when `fetch_targets` merged the
`list_targets_for_policy` result in. -/
structure PolicyDescription where
  detail : PolicyDetail
  Tags : TagMap
  Targets : Option (List Target)
deriving Repr

/-- Service responses consumed by `Policies.describe_policy`. -/
structure DescribePolicyEnv where
  describePolicy : SvcResp PolicyDetail
  listTags : SvcResp TagMap
  listTargets : SvcResp (List Target)

/-- `Policies.describe_policy`: describe the base policy (`None` on
not-found), then fetch tags (access denied degrades to an empty tag list
plus a warning; any other error hard-fails), then, when `fetch_targets` is
set, fetch attachment targets (any error, access denied included,
hard-fails). -/
def describe_policy (env : DescribePolicyEnv) (fetch_targets : Bool) (policy : String) :
    OpResult (Option PolicyDescription) :=
  match env.describePolicy with
  | .err .policyNotFound =>
    { result := .ok none, calls := [], warnings := [] }
  | .err _ =>
    { result := .fail ("Failed to describe policy " ++ policy), calls := [], warnings := [] }
  | .ok description =>
    let afterTags :=
      match env.listTags with
      | .ok t => SvcResp.ok (t, ([] : List String))
      | .err .accessDenied => SvcResp.ok ([], ["Access Denied fetching Tags"])
      | .err e => SvcResp.err e
    match afterTags with
    | .err _ =>
      { result := .fail ("Failed to describe policy " ++ policy), calls := [], warnings := [] }
    | .ok (tags, warns) =>
      if fetch_targets then
        match env.listTargets with
        | .err _ =>
          { result := .fail ("Failed to list targets for policy " ++ policy),
            calls := [], warnings := warns }
        | .ok targets =>
          { result := .ok (some { detail := description, Tags := tags, Targets := some targets }),
            calls := [], warnings := warns }
      else
        { result := .ok (some { detail := description, Tags := tags, Targets := none }),
          calls := [], warnings := warns }

/-- Service responses consumed by `Policies.delete_policy`; the detach
response is looked up by the target identifier. -/
structure DeletePolicyEnv where
  listTargets : SvcResp (List Target)
  detachPolicy : String → SvcResp Unit
  deletePolicy : SvcResp Unit

/-- Result of `Policies.delete_policy`: outcome, the payload of blocking
targets attached to the not-forced failure, the mutating calls issued, and
the subset of those the service actually performed (a detach answered
"not attached" and a delete answered "not found" were issued but performed
nothing). -/
structure DeleteResult where
  result : Outcome Bool
  targetsPayload : List TargetSnake
  attempts : List MutCall
  execs : List MutCall
  warnings : List String
deriving Repr

/-- The sequential detach loop of `Policies.delete_policy`.  Faithful to
the source: `changed = True` sits after the `try`/`except` block whose
`PolicyNotAttachedException` arm is `pass`, so a not-attached answer still
sets the changed flag; any other error hard-fails and aborts the rest. -/
def detach_targets (detach : String → SvcResp Unit) (policy : String) (changed : Bool) :
    List Target → Outcome Bool × List MutCall × List MutCall
  | [] => (.ok changed, [], [])
  | t :: rest =>
    match detach t.TargetId with
    | .ok _ =>
      let r := detach_targets detach policy true rest
      (r.1, .detachCall policy t.TargetId :: r.2.1, .detachCall policy t.TargetId :: r.2.2)
    | .err .policyNotAttached =>
      let r := detach_targets detach policy true rest
      (r.1, .detachCall policy t.TargetId :: r.2.1, r.2.2)
    | .err _ =>
      (.fail ("Failed to detach policy " ++ policy ++ " from target " ++ t.TargetId),
       [.detachCall policy t.TargetId], [])

/-- The failure message of the final delete call reuses the detach format
string with the loop variable `target`; when no target was ever iterated
that name is unbound and the handler itself raises (uncaught). -/
def delete_fail_outcome (policy : String) (targets : List Target) : Outcome Bool :=
  match targets.getLast? with
  | some t =>
    .fail ("Failed to detach policy " ++ policy ++ " from target " ++ t.TargetId)
  | none => .uncaught .other

/-- The delete stage of `Policies.delete_policy` (after any detaching):
short-circuits to changed in check mode, treats a not-found answer as
already deleted (leaving the changed flag as accumulated), hard-fails on
any other error. -/
def delete_stage (env : DeletePolicyEnv) (check_mode : Bool) (policy : String)
    (targets : List Target) (changed : Bool) (attempts execs : List MutCall) :
    Outcome Bool × List MutCall × List MutCall :=
  if check_mode then (.ok true, attempts, execs)
  else
    match env.deletePolicy with
    | .ok _ =>
      (.ok true, attempts ++ [.deleteCall policy], execs ++ [.deleteCall policy])
    | .err .policyNotFound => (.ok changed, attempts ++ [.deleteCall policy], execs)
    | .err _ =>
      (delete_fail_outcome policy targets, attempts ++ [.deleteCall policy], execs)

/-- `Policies.delete_policy`: list the policy's targets (access denied
degrades to an empty list plus a warning; not-found returns unchanged with
a warning; other errors hard-fail), refuse to delete while attached unless
`force_delete` (failing with the full snake-cased target list as payload),
detach sequentially under `force_delete`, then delete. -/
def delete_policy (env : DeletePolicyEnv) (check_mode : Bool) (force_delete : Bool)
    (policy : Option String) : DeleteResult :=
  match policy with
  | none =>
    { result := .ok false, targetsPayload := [], attempts := [], execs := [], warnings := [] }
  | some policy =>
    let afterList :=
      match env.listTargets with
      | .ok ts => SvcResp.ok (ts, ([] : List String))
      | .err .accessDenied => SvcResp.ok ([], ["Access Denied fetching policy targets"])
      | .err e => SvcResp.err e
    match afterList with
    | .err .policyNotFound =>
      { result := .ok false, targetsPayload := [], attempts := [], execs := [],
        warnings := ["Attempted to delete a non-existent policy " ++ policy] }
    | .err _ =>
      { result := .fail ("Failed to list targets for policy " ++ policy),
        targetsPayload := [], attempts := [], execs := [], warnings := [] }
    | .ok (targets, warns) =>
      if targets.isEmpty then
        let r := delete_stage env check_mode policy targets false [] []
        { result := r.1, targetsPayload := [], attempts := r.2.1, execs := r.2.2,
          warnings := warns }
      else
        if !force_delete then
          { result := .fail ("Unable to delete policy " ++ policy ++ " - still attached"),
            targetsPayload := targets.map camel_target_to_snake,
            attempts := [], execs := [], warnings := warns }
        else if check_mode then
          { result := .ok true, targetsPayload := [], attempts := [], execs := [],
            warnings := warns }
        else
          match detach_targets env.detachPolicy policy false targets with
          | (.ok changed, att, ex) =>
            let r := delete_stage env check_mode policy targets changed att ex
            { result := r.1, targetsPayload := [], attempts := r.2.1, execs := r.2.2,
              warnings := warns }
          | (o, att, ex) =>
            { result := o, targetsPayload := [], attempts := att, execs := ex,
              warnings := warns }

/-- Service responses consumed by `Policies.list_policies` and
`Policies.find_policy_by_name`, keyed by the `Filter` string. -/
structure ListPoliciesEnv where
  listPolicies : String → SvcResp (List PolicySummary)

/-- `Policies.list_policies`: map the type through the alias table, list,
hard-fail when the listing errs or comes back empty, else return the ids. -/
def list_policies (env : ListPoliciesEnv) (policy_type : Option String) :
    Outcome (List String) :=
  let ptype := TYPE_MAPPING policy_type
  match env.listPolicies ptype with
  | .err _ => .fail "Failed to list policies"
  | .ok policies =>
    if policies.isEmpty then
      .fail "Failed to list policies - Policies missing from returned value."
    else
      .ok (policies.map (fun p => p.Id))

/-- `Policies.find_policy_by_name`: list all policies of the type (same
empty-list hard failure as `list_policies`), then return the ids of those
whose name matches. -/
def find_policy_by_name (env : ListPoliciesEnv) (name : String) (policy_type : Option String) :
    Outcome (List String) :=
  let ptype := TYPE_MAPPING policy_type
  match env.listPolicies ptype with
  | .err _ => .fail "Failed to list policies"
  | .ok policies =>
    if policies.isEmpty then
      .fail "Failed to list policies - Policies missing from returned value."
    else
      .ok ((policies.filter (fun p => p.Name = name)).map (fun p => p.Id))

/-! ### Organizational units (class `OrgUnits` in organization.py) -/

/-- An organization Root as the service returns it. -/
structure Root where
  Id : String
  Arn : String
  Name : String
deriving DecidableEq, Repr

/-- Snake-case rendering of a Root dict. -/
structure RootSnake where
  id : String
  arn : String
  name : String
deriving DecidableEq, Repr

/-- `camel_dict_to_snake_dict` (external ansible collaborator) restricted
to Root dicts. -/
def camel_root_to_snake (r : Root) : RootSnake :=
  { id := r.Id, arn := r.Arn, name := r.Name }

/-- `OrgUnits.normalize_roots`, translated faithfully: the loop only
rebinds the local `_root`, and the single `normalized += [_root]` sits at
the loop's outer indentation level, so after the loop only the last root's
normalization is appended; on an empty input `_root` was never bound and
the append raises an uncaught `UnboundLocalError`. -/
def normalize_roots (roots : List Root) : Outcome (List RootSnake) :=
  let final : Option RootSnake :=
    roots.foldl (fun _ root => some (camel_root_to_snake root)) none
  match final with
  | none => .uncaught .other
  | some r => .ok [r]

/-- An organizational unit as the service returns it (the summary from
`list_organizational_units_for_parent` carries the same fields as the
detail from `describe_organizational_unit`). -/
structure OU where
  Id : String
  Arn : String
  Name : String
deriving DecidableEq, Repr

/-- An entry of a `list_children` / `list_parents` response (the source
projects out `Id` immediately). -/
structure Child where
  Id : String
deriving DecidableEq, Repr

/-- Outcome plus warnings of one auxiliary describe sub-query. -/
structure SubResult (α : Type) where
  result : Outcome α
  warnings : List String
deriving Repr

/-- `OrgUnits._describe_parents`: access denied degrades to an empty parent
list plus a warning; any other error hard-fails. -/
def describe_parents (listParents : SvcResp (List Child)) : SubResult (List String) :=
  match listParents with
  | .ok ps => { result := .ok (ps.map (fun c => c.Id)), warnings := [] }
  | .err .accessDenied =>
    { result := .ok [], warnings := ["Access Denied fetching Parents"] }
  | .err _ => { result := .fail "Failed to list Parents", warnings := [] }

/-- `OrgUnits._describe_children`: the child-accounts query and the
child-OUs query are handled independently; each degrades to an empty list
plus its own warning on access denied, and hard-fails on any other
error. -/
def describe_children (listChildren : String → SvcResp (List Child)) :
    SubResult (List String × List String) :=
  match listChildren "ACCOUNT" with
  | .err .accessDenied =>
    match listChildren "ORGANIZATIONAL_UNIT" with
    | .err .accessDenied =>
      { result := .ok ([], []),
        warnings := ["Access Denied fetching Child Accounts", "Access Denied fetching Child OUs"] }
    | .err _ =>
      { result := .fail "Failed to list Child OUs",
        warnings := ["Access Denied fetching Child Accounts"] }
    | .ok ous =>
      { result := .ok ([], ous.map (fun c => c.Id)),
        warnings := ["Access Denied fetching Child Accounts"] }
  | .err _ => { result := .fail "Failed to list Child Accounts", warnings := [] }
  | .ok accounts =>
    match listChildren "ORGANIZATIONAL_UNIT" with
    | .err .accessDenied =>
      { result := .ok (accounts.map (fun c => c.Id), []),
        warnings := ["Access Denied fetching Child OUs"] }
    | .err _ => { result := .fail "Failed to list Child OUs", warnings := [] }
    | .ok ous =>
      { result := .ok (accounts.map (fun c => c.Id), ous.map (fun c => c.Id)),
        warnings := [] }

/-- The per-type loop of `OrgUnits._describe_attached_policies`: access
denied for one policy type skips that type with a warning; any other error
hard-fails the whole describe. -/
def attached_policies_loop (q : String → SvcResp (List PolicySummary)) :
    List String → SubResult (List PolicySummary)
  | [] => { result := .ok [], warnings := [] }
  | ptype :: rest =>
    match q ptype with
    | .ok ps =>
      let r := attached_policies_loop q rest
      { result :=
          match r.result with
          | .ok tail => .ok (ps ++ tail)
          | o => o,
        warnings := r.warnings }
    | .err .accessDenied =>
      let r := attached_policies_loop q rest
      { result := r.result,
        warnings := ("Access Denied fetching attached " ++ ptype) :: r.warnings }
    | .err _ =>
      { result := .fail "Failed to list attached policies", warnings := [] }

/-- `OrgUnits._describe_attached_policies`: queries the four policy types
in a fixed order and concatenates the attached policies. -/
def describe_attached_policies (q : String → SvcResp (List PolicySummary)) :
    SubResult (List PolicySummary) :=
  attached_policies_loop q
    ["SERVICE_CONTROL_POLICY", "TAG_POLICY", "AISERVICES_OPT_OUT_POLICY", "BACKUP_POLICY"]

/-- The merged view `OrgUnits.describe_ou` returns. -/
structure OuDescription where
  base : OU
  Tags : TagMap
  Parents : Option (List String)
  ChildAccounts : Option (List String)
  ChildOus : Option (List String)
  AttachedPolicies : Option (List PolicySummary)
deriving Repr

/-- Service responses consumed by `OrgUnits.describe_ou`. -/
structure DescribeOuEnv where
  describeOu : SvcResp OU
  listTags : SvcResp TagMap
  listChildren : String → SvcResp (List Child)
  listParents : SvcResp (List Child)
  listPoliciesForTarget : String → SvcResp (List PolicySummary)

/-- `OrgUnits.describe_ou` (by identifier): a Python-falsy `ou` argument
(`if not ou:` — absent or empty) returns `None`; then the base describe
(`None` on not-found, hard failure otherwise, with the copied
`Failed to list Organization roots` message of `_describe_ou`), then the
tags listing — which the source wraps in no `try`/`except` at all, so any
service error there, access denied included, escapes as an uncaught
exception — then, when `fetch_attachments`, the parents, children and
attached-policies sub-queries. -/
def describe_ou (env : DescribeOuEnv) (ou : Option String) (fetch_attachments : Bool) :
    OpResult (Option OuDescription) :=
  if !truthy ou then { result := .ok none, calls := [], warnings := [] }
  else
    match env.describeOu with
    | .err .ouNotFound => { result := .ok none, calls := [], warnings := [] }
    | .err _ =>
      { result := .fail "Failed to list Organization roots", calls := [], warnings := [] }
    | .ok described_ou =>
      match env.listTags with
      | .err e => { result := .uncaught e, calls := [], warnings := [] }
      | .ok tags =>
        if fetch_attachments then
          let pr := describe_parents env.listParents
          match pr.result with
          | .fail m => { result := .fail m, calls := [], warnings := pr.warnings }
          | .uncaught e => { result := .uncaught e, calls := [], warnings := pr.warnings }
          | .ok parents =>
            let cr := describe_children env.listChildren
            match cr.result with
            | .fail m =>
              { result := .fail m, calls := [], warnings := pr.warnings ++ cr.warnings }
            | .uncaught e =>
              { result := .uncaught e, calls := [], warnings := pr.warnings ++ cr.warnings }
            | .ok children =>
              let ar := describe_attached_policies env.listPoliciesForTarget
              match ar.result with
              | .fail m =>
                { result := .fail m, calls := [],
                  warnings := pr.warnings ++ cr.warnings ++ ar.warnings }
              | .uncaught e =>
                { result := .uncaught e, calls := [],
                  warnings := pr.warnings ++ cr.warnings ++ ar.warnings }
              | .ok pols =>
                { result := .ok (some
                    { base := described_ou, Tags := tags, Parents := some parents,
                      ChildAccounts := some children.1, ChildOus := some children.2,
                      AttachedPolicies := some pols }),
                  calls := [],
                  warnings := pr.warnings ++ cr.warnings ++ ar.warnings }
        else
          { result := .ok (some
              { base := described_ou, Tags := tags, Parents := none,
                ChildAccounts := none, ChildOus := none, AttachedPolicies := none }),
            calls := [], warnings := [] }

/-- Service responses consumed by `OrgUnits.list_roots` / `list_ous`; the
per-parent listing is looked up by the parent identifier. -/
structure OuEnv where
  listRoots : SvcResp (List Root)
  listOusFor : String → SvcResp (List OU)

/-- `OrgUnits.list_roots`: hard-fails on any service error. -/
def list_roots (env : OuEnv) : Outcome (List Root) :=
  match env.listRoots with
  | .err _ => .fail "Failed to list Organization roots"
  | .ok roots => .ok roots

/-- Result of `OrgUnits.list_ous`: outcome, the payload of normalized
roots attached to the multiple-roots failure, and the parent identifiers
passed to `list_organizational_units_for_parent` (in call order). -/
structure ListOusResult where
  result : Outcome (List OU)
  rootsPayload : List RootSnake
  ouListCalls : List String
deriving Repr

/-- The parent-resolution prologue of `OrgUnits.list_ous`: a falsy parent
argument (`if not parent:`) triggers Root resolution via `list_roots`,
hard-failing when zero roots or more than one root come back (the latter
with the `normalize_roots` payload); otherwise the parent is the single
root's identifier. -/
def resolve_parent (env : OuEnv) (parent : Option String) : ListOusResult ⊕ String :=
  if truthy parent then .inr (parent.getD "")
  else
    match list_roots env with
    | .fail m => .inl { result := .fail m, rootsPayload := [], ouListCalls := [] }
    | .uncaught e => .inl { result := .uncaught e, rootsPayload := [], ouListCalls := [] }
    | .ok roots =>
      match roots with
      | [] =>
        .inl { result := .fail "Unable to list Organization Roots, a parent must be specified",
               rootsPayload := [], ouListCalls := [] }
      | [root] => .inr root.Id
      | _ :: _ :: _ =>
        .inl { result := .fail "Found multiple Organization Roots, a parent must be specified",
               rootsPayload :=
                 match normalize_roots roots with
                 | .ok l => l
                 | _ => [],
               ouListCalls := [] }

/-- The child loop of `list_ous`: iterate over a snapshot of the direct
children, appending each child's recursive listing; a failure inside one
child's listing aborts the whole call before the later children are
visited. -/
def children_loop (f : OU → ListOusResult) : List OU → ListOusResult
  | [] => { result := .ok [], rootsPayload := [], ouListCalls := [] }
  | child :: rest =>
    let r := f child
    match r.result with
    | .ok sub =>
      let rr := children_loop f rest
      match rr.result with
      | .ok tail =>
        { result := .ok (sub ++ tail), rootsPayload := [],
          ouListCalls := r.ouListCalls ++ rr.ouListCalls }
      | o =>
        { result := o, rootsPayload := rr.rootsPayload,
          ouListCalls := r.ouListCalls ++ rr.ouListCalls }
    | _ => r

/-- `OrgUnits.list_ous`: resolve the parent (Root lookup when the argument
is falsy), list the parent's direct child OUs, and when `recurse and
max_depth > 0` (the positive depth is matched as `d + 1`, so the recursion
is bounded by it) append each child's own `list_ous` at depth
`max_depth - 1`, aborting on the first failure. -/
def list_ous (env : OuEnv) (recurse : Bool) : Nat → Option String → ListOusResult
  | max_depth, parent =>
    match resolve_parent env parent with
    | .inl failres => failres
    | .inr p =>
      match env.listOusFor p with
      | .err _ =>
        { result := .fail "Failed to list ous", rootsPayload := [], ouListCalls := [p] }
      | .ok ous =>
        if recurse then
          match max_depth with
          | 0 => { result := .ok ous, rootsPayload := [], ouListCalls := [p] }
          | d + 1 =>
            let r := children_loop (fun child => list_ous env recurse d (some child.Id)) ous
            match r.result with
            | .ok extra =>
              { result := .ok (ous ++ extra), rootsPayload := [],
                ouListCalls := p :: r.ouListCalls }
            | o =>
              { result := o, rootsPayload := r.rootsPayload,
                ouListCalls := p :: r.ouListCalls }
        else { result := .ok ous, rootsPayload := [], ouListCalls := [p] }

end Org

namespace Org

/-! ### Concrete instances used by the witnesses and counterexamples -/

/-- An `OuEnv` whose per-parent listing is a total, never-failing children
map (used to state the tree-walk characterization). -/
def pureOuEnv (f : String → List OU) : OuEnv :=
  { listRoots := .ok [], listOusFor := fun p => .ok (f p) }

/-- The depth-indexed tree walk the amended C2 claim describes: the direct
children first, then each child's walk one level shallower; at depth 0
still the direct children (so a call at `max_depth` reaches descendants
down to depth `max_depth + 1`). -/
def depthList (f : String → List OU) : Nat → String → List OU
  | 0, p => f p
  | d + 1, p => f p ++ (f p).flatMap (fun c => depthList f d c.Id)

def pdC1 : PolicyDetail :=
  { PolicySummary := { Id := "p-1", Name := "P", Description := "D" }, Content := .obj [] }

def ouBaseC1 : OU := { Id := "ou-1", Arn := "arn-ou-1", Name := "O" }

def envC1tagsDenied : DescribePolicyEnv :=
  { describePolicy := .ok pdC1, listTags := .err .accessDenied, listTargets := .ok [] }

def envC1tagsOther : DescribePolicyEnv :=
  { describePolicy := .ok pdC1, listTags := .err .other, listTargets := .ok [] }

def envC1children : DescribeOuEnv :=
  { describeOu := .ok ouBaseC1, listTags := .ok [("k", "v")],
    listChildren := fun ct => if ct = "ACCOUNT" then .err .accessDenied else .ok [],
    listParents := .ok [{ Id := "r-1" }],
    listPoliciesForTarget := fun _ => .ok [] }

def envC1ouTags : DescribeOuEnv :=
  { describeOu := .ok ouBaseC1, listTags := .err .accessDenied,
    listChildren := fun _ => .ok [], listParents := .ok [],
    listPoliciesForTarget := fun _ => .ok [] }

def envC1targetsDenied : DescribePolicyEnv :=
  { describePolicy := .ok pdC1, listTags := .ok [], listTargets := .err .accessDenied }

def envC1parentsDenied : DescribeOuEnv :=
  { describeOu := .ok ouBaseC1, listTags := .ok [],
    listChildren := fun _ => .ok [], listParents := .err .accessDenied,
    listPoliciesForTarget := fun _ => .ok [] }

def envC1parentsOther : DescribeOuEnv :=
  { describeOu := .ok ouBaseC1, listTags := .ok [],
    listChildren := fun _ => .ok [], listParents := .err .other,
    listPoliciesForTarget := fun _ => .ok [] }

def envC1childrenOther : DescribeOuEnv :=
  { describeOu := .ok ouBaseC1, listTags := .ok [],
    listChildren := fun ct => if ct = "ACCOUNT" then .err .other else .ok [],
    listParents := .ok [],
    listPoliciesForTarget := fun _ => .ok [] }

def envC1childOusDenied : DescribeOuEnv :=
  { describeOu := .ok ouBaseC1, listTags := .ok [],
    listChildren := fun ct =>
      if ct = "ORGANIZATIONAL_UNIT" then .err .accessDenied else .ok [],
    listParents := .ok [],
    listPoliciesForTarget := fun _ => .ok [] }

def envC1childOusOther : DescribeOuEnv :=
  { describeOu := .ok ouBaseC1, listTags := .ok [],
    listChildren := fun ct => if ct = "ORGANIZATIONAL_UNIT" then .err .other else .ok [],
    listParents := .ok [],
    listPoliciesForTarget := fun _ => .ok [] }

def envC1attachedDenied : DescribeOuEnv :=
  { describeOu := .ok ouBaseC1, listTags := .ok [],
    listChildren := fun _ => .ok [], listParents := .ok [],
    listPoliciesForTarget := fun s => if s = "TAG_POLICY" then .err .accessDenied else .ok [] }

def envC1attachedOther : DescribeOuEnv :=
  { describeOu := .ok ouBaseC1, listTags := .ok [],
    listChildren := fun _ => .ok [], listParents := .ok [],
    listPoliciesForTarget := fun s => if s = "TAG_POLICY" then .err .other else .ok [] }

def ouA : OU := { Id := "a", Arn := "arn-a", Name := "A" }
def ouB : OU := { Id := "b", Arn := "arn-b", Name := "B" }
def ouC : OU := { Id := "c", Arn := "arn-c", Name := "C" }

/-- A three-level tree: root `r` has child `a`, `a` has child `b`, `b` has
child `c` (so `c` sits at depth 3 below `r`). -/
def fC2 : String → List OU := fun p =>
  if p = "r" then [ouA]
  else if p = "a" then [ouB]
  else if p = "b" then [ouC]
  else []

def envC2 : OuEnv := pureOuEnv fC2

def tgtC3 : Target :=
  { TargetId := "t-1", Arn := "arn-t-1", Name := "T1", TargetType := "ACCOUNT" }

/-- One attached target whose detach answers "not attached" and whose
delete answers "not found": no mutation is ever performed. -/
def envC3 : DeletePolicyEnv :=
  { listTargets := .ok [tgtC3],
    detachPolicy := fun _ => .err .policyNotAttached,
    deletePolicy := .err .policyNotFound }

def envC3w : DeletePolicyEnv :=
  { listTargets := .ok [tgtC3],
    detachPolicy := fun _ => .ok (),
    deletePolicy := .ok () }

def envC4 : UpdateTagsEnv :=
  { listTags := .ok [("a", "1"), ("b", "2")], tagResource := .ok (), untagResource := .ok () }

def pdC5 : PolicyDetail :=
  { PolicySummary := { Id := "p-5", Name := "N", Description := "D" },
    Content := .obj [("a", .num 1), ("b", .num 2)] }

def envC5 : UpdatePolicyEnv := { describePolicy := .ok pdC5, updatePolicy := .ok () }

def pdC5b : PolicyDetail :=
  { PolicySummary := { Id := "p-5", Name := "N", Description := "D" },
    Content := .obj [("a", .num 1)] }

def envC5b : UpdatePolicyEnv := { describePolicy := .ok pdC5b, updatePolicy := .ok () }

def tgtC6a : Target :=
  { TargetId := "t-6a", Arn := "arn-6a", Name := "A6", TargetType := "ACCOUNT" }
def tgtC6b : Target :=
  { TargetId := "t-6b", Arn := "arn-6b", Name := "B6", TargetType := "ORGANIZATIONAL_UNIT" }

def envC6 : DeletePolicyEnv :=
  { listTargets := .ok [tgtC6a, tgtC6b],
    detachPolicy := fun _ => .ok (),
    deletePolicy := .ok () }

def rootC7 : Root := { Id := "r-7", Arn := "arn-r7", Name := "R7" }
def rootC7b : Root := { Id := "r-7b", Arn := "arn-r7b", Name := "R7b" }

def envC7zero : OuEnv := { listRoots := .ok [], listOusFor := fun _ => .ok [] }
def envC7multi : OuEnv := { listRoots := .ok [rootC7, rootC7b], listOusFor := fun _ => .ok [] }
def envC7one : OuEnv := { listRoots := .ok [rootC7], listOusFor := fun _ => .ok [] }

def pdC8 : PolicyDetail :=
  { PolicySummary := { Id := "p-8", Name := "N8", Description := "D8" }, Content := .obj [] }

def envC8upd : UpdatePolicyEnv := { describePolicy := .ok pdC8, updatePolicy := .ok () }

def envC8create : CreatePolicyEnv :=
  { createPolicy := .ok { Id := "p-8", Name := "N8", Description := "D8" },
    tagResource := .ok () }

def envC8tags : UpdateTagsEnv :=
  { listTags := .ok [], tagResource := .ok (), untagResource := .ok () }

def envC8del : DeletePolicyEnv :=
  { listTargets := .ok [], detachPolicy := fun _ => .ok (), deletePolicy := .ok () }

def envC9 : ListPoliciesEnv := { listPolicies := fun _ => .ok [] }

def rootC10a : Root := { Id := "r-10a", Arn := "arn-10a", Name := "Ra" }
def rootC10b : Root := { Id := "r-10b", Arn := "arn-10b", Name := "Rb" }

def envC10 : OuEnv :=
  { listRoots := .ok [rootC10a, rootC10b], listOusFor := fun _ => .ok [] }

end Org

namespace Org

/-! ### Helper lemmas -/

/-- A fold that just rebinds its accumulator to the image of the current
element ends at the image of the last element. -/
theorem foldl_last_some {α β : Type} (f : α → β) (l : List α) (r : α) (acc : Option β)
    (h : l.getLast? = some r) :
    l.foldl (fun _ x => some (f x)) acc = some (f r) := by
  induction l generalizing acc with
  | nil => simp at h
  | cons a t ih =>
    cases t with
    | nil =>
      simp at h
      subst h
      rfl
    | cons b t' =>
      rw [List.getLast?_cons_cons] at h
      rw [List.foldl_cons]
      exact ih _ h

/-- A `list_ous` call whose parent resolution fails returns that failure
unchanged. -/
theorem list_ous_resolve_fail (env : OuEnv) (recurse : Bool) (d : Nat)
    (parent : Option String) (failres : ListOusResult)
    (h : resolve_parent env parent = .inl failres) :
    list_ous env recurse d parent = failres := by
  rw [list_ous, h]

/-- Parent resolution with a truthy parent just unwraps it. -/
theorem resolve_parent_truthy (env : OuEnv) (parent : Option String)
    (h : truthy parent = true) :
    resolve_parent env parent = .inr (parent.getD "") := by
  simp [resolve_parent, h]

/-- A non-empty string is Python-truthy. -/
theorem truthy_some (p : String) (h : p ≠ "") : truthy (some p) = true := by
  cases he : p.isEmpty with
  | false => simp [truthy, he]
  | true => exact absurd ((String.isEmpty_iff p).mp he) h

/-- A child loop whose every iteration succeeds collects the concatenation
of the per-child listings. -/
theorem children_loop_ok (g : OU → ListOusResult) (h : OU → List OU) (l : List OU)
    (hg : ∀ c ∈ l, (g c).result = .ok (h c)) :
    (children_loop g l).result = .ok (l.flatMap h) := by
  induction l with
  | nil => rfl
  | cons c rest ih =>
    have hc := hg c (List.mem_cons_self c rest)
    have hrest := ih fun c' hc' => hg c' (List.mem_cons_of_mem c hc')
    simp only [children_loop, hc, hrest, List.flatMap_cons]

/-- Parent resolution with a falsy parent and zero roots. -/
theorem resolve_parent_zero (env : OuEnv) (parent : Option String)
    (hfalsy : truthy parent = false) (h : env.listRoots = .ok []) :
    resolve_parent env parent =
      .inl { result := .fail "Unable to list Organization Roots, a parent must be specified",
             rootsPayload := [], ouListCalls := [] } := by
  simp [resolve_parent, hfalsy, list_roots, h]

/-- Parent resolution with a falsy parent and at least two roots. -/
theorem resolve_parent_multi (env : OuEnv) (parent : Option String)
    (r1 r2 : Root) (rest : List Root)
    (hfalsy : truthy parent = false) (h : env.listRoots = .ok (r1 :: r2 :: rest)) :
    resolve_parent env parent =
      .inl { result := .fail "Found multiple Organization Roots, a parent must be specified",
             rootsPayload :=
               match normalize_roots (r1 :: r2 :: rest) with
               | .ok l => l
               | _ => [],
             ouListCalls := [] } := by
  simp [resolve_parent, hfalsy, list_roots, h]

/-- A detach loop entered with the changed flag already set can only
report changed when it succeeds. -/
theorem detach_targets_true (detach : String → SvcResp Unit) (p : String) (l : List Target)
    (b : Bool) (h : (detach_targets detach p true l).1 = .ok b) : b = true := by
  induction l with
  | nil =>
    simp [detach_targets] at h
    exact h
  | cons t rest ih =>
    rw [detach_targets] at h
    cases hd : detach t.TargetId with
    | ok u =>
      rw [hd] at h
      exact ih h
    | err e =>
      rw [hd] at h
      cases e <;> simp_all

/-- A successful detach loop over a non-empty target list always reports
changed, whatever the individual detach answers were (`changed = True` is
set per target even when the answer was "not attached"). -/
theorem detach_targets_nonempty_true (detach : String → SvcResp Unit) (p : String)
    (t : Target) (rest : List Target) (ch b : Bool)
    (h : (detach_targets detach p ch (t :: rest)).1 = .ok b) : b = true := by
  rw [detach_targets] at h
  cases hd : detach t.TargetId with
  | ok u =>
    rw [hd] at h
    exact detach_targets_true detach p rest b h
  | err e =>
    rw [hd] at h
    cases e <;> first
      | exact detach_targets_true detach p rest b h
      | simp_all

/-- Looking up a key of a pair present in a map with unique keys yields
that pair's value. -/
theorem lookup_self (l : TagMap) (hnd : (l.map Prod.fst).Nodup) :
    ∀ kv ∈ l, l.lookup kv.1 = some kv.2 := by
  induction l with
  | nil => intro kv h; simp at h
  | cons hd rest ih =>
    intro kv hkv
    simp only [List.map_cons, List.nodup_cons] at hnd
    rcases List.mem_cons.mp hkv with rfl | hmem
    · simp [List.lookup]
    · have hne : kv.1 ≠ hd.1 := by
        intro hcontra
        exact hnd.1 (hcontra ▸ List.mem_map_of_mem Prod.fst hmem)
      have hbeq : (kv.1 == hd.1) = false := beq_eq_false_iff_ne.mpr hne
      simp only [List.lookup, hbeq]
      exact ih hnd.2 kv hmem

/-- Looking up a key that occurs in the map never yields `none`. -/
theorem lookup_present (l : TagMap) (k : String) (h : k ∈ l.map Prod.fst) :
    (l.lookup k).isNone = false := by
  induction l with
  | nil => simp at h
  | cons hd rest ih =>
    simp only [List.map_cons, List.mem_cons] at h
    by_cases hk : k = hd.1
    · simp [List.lookup, hk]
    · have hbeq : (k == hd.1) = false := beq_eq_false_iff_ne.mpr hk
      simp only [List.lookup, hbeq]
      exact ih (h.resolve_left hk)

/-- Every OU identifier in the concrete C2 tree is non-empty. -/
theorem fC2_child_ids : ∀ q, ∀ c ∈ fC2 q, c.Id ≠ "" := by
  intro q c hc
  simp only [fC2] at hc
  split at hc
  · simp at hc
    subst hc
    decide
  · split at hc
    · simp at hc
      subst hc
      decide
    · split at hc
      · simp at hc
        subst hc
        decide
      · simp at hc

/-! ### Claim theorems -/

/-- **C1 counterexample**: (i) an access-denied answer to the tags
sub-query of `describe_ou` escapes as an uncaught exception — the describe
neither succeeds with empty tags nor emits a warning; (ii) an
access-denied answer to the targets sub-query of `describe_policy` is a
hard failure rather than an empty result plus warning. -/
theorem c1_counterexample :
    (describe_ou envC1ouTags (some "ou-1") true).result = .uncaught .accessDenied ∧
    (describe_ou envC1ouTags (some "ou-1") true).warnings = [] ∧
    (describe_policy envC1targetsDenied true "p-1").result =
      .fail ("Failed to list targets for policy " ++ "p-1") :=
  ⟨rfl, rfl, rfl⟩

/-- **C1** (corrected): the sub-queries that are wrapped in handlers are
independently fault-tolerant — `describe_policy`'s tags sub-query and
`describe_ou`'s parents / child-accounts / child-OUs / attached-policies
sub-queries degrade to an empty result plus a warning on access denied
while any other service error hard-fails — but `describe_ou`'s tags
sub-query has no handler at all (any error there, access denied included,
escapes as an uncaught exception), and `describe_policy`'s targets
sub-query treats every error, access denied included, as a hard failure. -/
theorem c1_partial_fault_tolerance :
    -- (1) policy tags: access denied degrades to empty plus warning
    (∀ (env : DescribePolicyEnv) (p : String) (d : PolicyDetail),
      env.describePolicy = .ok d → env.listTags = .err .accessDenied →
      (describe_policy env false p).result =
        .ok (some { detail := d, Tags := [], Targets := none }) ∧
      (describe_policy env false p).warnings = ["Access Denied fetching Tags"]) ∧
    -- (2) policy tags: any other error hard-fails
    (∀ (env : DescribePolicyEnv) (p : String) (d : PolicyDetail),
      env.describePolicy = .ok d → env.listTags = .err .other →
      (describe_policy env false p).result = .fail ("Failed to describe policy " ++ p)) ∧
    -- (3) policy targets: EVERY error hard-fails (whenever reached)
    (∀ (env : DescribePolicyEnv) (p : String) (d : PolicyDetail) (t : TagMap) (e : ErrCode),
      env.describePolicy = .ok d →
      (env.listTags = .ok t ∨ env.listTags = .err .accessDenied) →
      env.listTargets = .err e →
      (describe_policy env true p).result =
        .fail ("Failed to list targets for policy " ++ p)) ∧
    -- (4) ou tags: EVERY error escapes uncaught
    (∀ (env : DescribeOuEnv) (ou : String) (base : OU) (e : ErrCode) (fa : Bool),
      ou ≠ "" → env.describeOu = .ok base → env.listTags = .err e →
      (describe_ou env (some ou) fa).result = .uncaught e) ∧
    -- (5) ou parents: access denied degrades
    (∀ (env : DescribeOuEnv) (ou : String) (base : OU) (t : TagMap) (as os : List Child),
      ou ≠ "" → env.describeOu = .ok base → env.listTags = .ok t →
      env.listParents = .err .accessDenied →
      env.listChildren "ACCOUNT" = .ok as →
      env.listChildren "ORGANIZATIONAL_UNIT" = .ok os →
      (∀ s, env.listPoliciesForTarget s = .ok []) →
      (describe_ou env (some ou) true).result =
        .ok (some { base := base, Tags := t, Parents := some [],
                    ChildAccounts := some (as.map (fun c => c.Id)),
                    ChildOus := some (os.map (fun c => c.Id)),
                    AttachedPolicies := some [] }) ∧
      "Access Denied fetching Parents" ∈ (describe_ou env (some ou) true).warnings) ∧
    -- (6) ou parents: any other error hard-fails
    (∀ (env : DescribeOuEnv) (ou : String) (base : OU) (t : TagMap),
      ou ≠ "" → env.describeOu = .ok base → env.listTags = .ok t →
      env.listParents = .err .other →
      (describe_ou env (some ou) true).result = .fail "Failed to list Parents") ∧
    -- (7) ou child accounts: access denied degrades
    (∀ (env : DescribeOuEnv) (ou : String) (base : OU) (t : TagMap)
      (ps os : List Child),
      ou ≠ "" → env.describeOu = .ok base → env.listTags = .ok t →
      env.listParents = .ok ps →
      env.listChildren "ACCOUNT" = .err .accessDenied →
      env.listChildren "ORGANIZATIONAL_UNIT" = .ok os →
      (∀ s, env.listPoliciesForTarget s = .ok []) →
      (describe_ou env (some ou) true).result =
        .ok (some { base := base, Tags := t, Parents := some (ps.map (fun c => c.Id)),
                    ChildAccounts := some [],
                    ChildOus := some (os.map (fun c => c.Id)),
                    AttachedPolicies := some [] }) ∧
      "Access Denied fetching Child Accounts" ∈ (describe_ou env (some ou) true).warnings) ∧
    -- (8) ou child accounts: any other error hard-fails
    (∀ (env : DescribeOuEnv) (ou : String) (base : OU) (t : TagMap) (ps : List Child),
      ou ≠ "" → env.describeOu = .ok base → env.listTags = .ok t →
      env.listParents = .ok ps →
      env.listChildren "ACCOUNT" = .err .other →
      (describe_ou env (some ou) true).result = .fail "Failed to list Child Accounts") ∧
    -- (9) ou child OUs: access denied degrades
    (∀ (env : DescribeOuEnv) (ou : String) (base : OU) (t : TagMap)
      (ps as : List Child),
      ou ≠ "" → env.describeOu = .ok base → env.listTags = .ok t →
      env.listParents = .ok ps →
      env.listChildren "ACCOUNT" = .ok as →
      env.listChildren "ORGANIZATIONAL_UNIT" = .err .accessDenied →
      (∀ s, env.listPoliciesForTarget s = .ok []) →
      (describe_ou env (some ou) true).result =
        .ok (some { base := base, Tags := t, Parents := some (ps.map (fun c => c.Id)),
                    ChildAccounts := some (as.map (fun c => c.Id)),
                    ChildOus := some [],
                    AttachedPolicies := some [] }) ∧
      "Access Denied fetching Child OUs" ∈ (describe_ou env (some ou) true).warnings) ∧
    -- (10) ou child OUs: any other error hard-fails
    (∀ (env : DescribeOuEnv) (ou : String) (base : OU) (t : TagMap)
      (ps as : List Child),
      ou ≠ "" → env.describeOu = .ok base → env.listTags = .ok t →
      env.listParents = .ok ps →
      env.listChildren "ACCOUNT" = .ok as →
      env.listChildren "ORGANIZATIONAL_UNIT" = .err .other →
      (describe_ou env (some ou) true).result = .fail "Failed to list Child OUs") ∧
    -- (11) ou attached policies: access denied on one type skips it
    (∀ (env : DescribeOuEnv) (ou : String) (base : OU) (t : TagMap) (ps as os : List Child)
      (l1 l3 l4 : List PolicySummary),
      ou ≠ "" → env.describeOu = .ok base → env.listTags = .ok t →
      env.listParents = .ok ps →
      env.listChildren "ACCOUNT" = .ok as →
      env.listChildren "ORGANIZATIONAL_UNIT" = .ok os →
      env.listPoliciesForTarget "SERVICE_CONTROL_POLICY" = .ok l1 →
      env.listPoliciesForTarget "TAG_POLICY" = .err .accessDenied →
      env.listPoliciesForTarget "AISERVICES_OPT_OUT_POLICY" = .ok l3 →
      env.listPoliciesForTarget "BACKUP_POLICY" = .ok l4 →
      (describe_ou env (some ou) true).result =
        .ok (some { base := base, Tags := t, Parents := some (ps.map (fun c => c.Id)),
                    ChildAccounts := some (as.map (fun c => c.Id)),
                    ChildOus := some (os.map (fun c => c.Id)),
                    AttachedPolicies := some (l1 ++ l3 ++ l4) }) ∧
      "Access Denied fetching attached TAG_POLICY" ∈
        (describe_ou env (some ou) true).warnings) ∧
    -- (12) ou attached policies: any other error hard-fails
    (∀ (env : DescribeOuEnv) (ou : String) (base : OU) (t : TagMap)
      (ps as os : List Child) (l1 : List PolicySummary),
      ou ≠ "" → env.describeOu = .ok base → env.listTags = .ok t →
      env.listParents = .ok ps →
      env.listChildren "ACCOUNT" = .ok as →
      env.listChildren "ORGANIZATIONAL_UNIT" = .ok os →
      env.listPoliciesForTarget "SERVICE_CONTROL_POLICY" = .ok l1 →
      env.listPoliciesForTarget "TAG_POLICY" = .err .other →
      (describe_ou env (some ou) true).result =
        .fail "Failed to list attached policies") := by
  refine ⟨fun env p d hdesc htags => ?_, fun env p d hdesc htags => ?_,
    fun env p d t e hdesc htags htargets => ?_,
    fun env ou base e fa hne hdesc htags => ?_,
    fun env ou base t as os hne hdesc htags hpar hacc hous hpol => ?_,
    fun env ou base t hne hdesc htags hpar => ?_,
    fun env ou base t ps os hne hdesc htags hpar hacc hous hpol => ?_,
    fun env ou base t ps hne hdesc htags hpar hacc => ?_,
    fun env ou base t ps as hne hdesc htags hpar hacc hous hpol => ?_,
    fun env ou base t ps as hne hdesc htags hpar hacc hous => ?_,
    fun env ou base t ps as os l1 l3 l4 hne hdesc htags hpar hacc hous h1 h2 h3 h4 => ?_,
    fun env ou base t ps as os l1 hne hdesc htags hpar hacc hous h1 h2 => ?_⟩
  · simp only [describe_policy, hdesc, htags]
    exact ⟨rfl, rfl⟩
  · simp only [describe_policy, hdesc, htags]
  · rcases htags with htags | htags <;> simp [describe_policy, hdesc, htags, htargets]
  · simp only [describe_ou, truthy_some ou hne, Bool.not_true, Bool.false_eq_true,
      if_false, hdesc, htags]
  · simp only [describe_ou, truthy_some ou hne, Bool.not_true, Bool.false_eq_true,
      if_false, hdesc, htags, describe_parents, describe_children,
      describe_attached_policies, attached_policies_loop, hpar, hacc, hous, hpol]
    exact ⟨rfl, by simp⟩
  · simp only [describe_ou, truthy_some ou hne, Bool.not_true, Bool.false_eq_true,
      if_false, hdesc, htags, describe_parents, hpar]
    rfl
  · simp only [describe_ou, truthy_some ou hne, Bool.not_true, Bool.false_eq_true,
      if_false, hdesc, htags, describe_parents, describe_children,
      describe_attached_policies, attached_policies_loop, hpar, hacc, hous, hpol]
    exact ⟨rfl, by simp⟩
  · simp only [describe_ou, truthy_some ou hne, Bool.not_true, Bool.false_eq_true,
      if_false, hdesc, htags, describe_parents, describe_children, hpar, hacc]
    rfl
  · simp only [describe_ou, truthy_some ou hne, Bool.not_true, Bool.false_eq_true,
      if_false, hdesc, htags, describe_parents, describe_children,
      describe_attached_policies, attached_policies_loop, hpar, hacc, hous, hpol]
    exact ⟨rfl, by simp⟩
  · simp only [describe_ou, truthy_some ou hne, Bool.not_true, Bool.false_eq_true,
      if_false, hdesc, htags, describe_parents, describe_children, hpar, hacc, hous]
    rfl
  · simp only [describe_ou, truthy_some ou hne, Bool.not_true, Bool.false_eq_true,
      if_false, hdesc, htags, describe_parents, describe_children,
      describe_attached_policies, attached_policies_loop, hpar, hacc, hous,
      h1, h2, h3, h4]
    exact ⟨by simp, by simp⟩
  · simp only [describe_ou, truthy_some ou hne, Bool.not_true, Bool.false_eq_true,
      if_false, hdesc, htags, describe_parents, describe_children,
      describe_attached_policies, attached_policies_loop, hpar, hacc, hous, h1, h2]
    rfl

/-- **C1 witness**: the twelve behaviors at concrete environments. -/
theorem c1_witness :
    ((describe_policy envC1tagsDenied false "p-1").result =
        .ok (some { detail := pdC1, Tags := [], Targets := none }) ∧
      (describe_policy envC1tagsDenied false "p-1").warnings =
        ["Access Denied fetching Tags"]) ∧
    (describe_policy envC1tagsOther false "p-1").result =
      .fail ("Failed to describe policy " ++ "p-1") ∧
    (describe_policy envC1targetsDenied true "p-1").result =
      .fail ("Failed to list targets for policy " ++ "p-1") ∧
    (describe_ou envC1ouTags (some "ou-1") false).result = .uncaught .accessDenied ∧
    ((describe_ou envC1parentsDenied (some "ou-1") true).result =
        .ok (some { base := ouBaseC1, Tags := [], Parents := some [],
                    ChildAccounts := some [], ChildOus := some [],
                    AttachedPolicies := some [] }) ∧
      "Access Denied fetching Parents" ∈
        (describe_ou envC1parentsDenied (some "ou-1") true).warnings) ∧
    (describe_ou envC1parentsOther (some "ou-1") true).result =
      .fail "Failed to list Parents" ∧
    ((describe_ou envC1children (some "ou-1") true).result =
        .ok (some { base := ouBaseC1, Tags := [("k", "v")], Parents := some ["r-1"],
                    ChildAccounts := some [], ChildOus := some [],
                    AttachedPolicies := some [] }) ∧
      "Access Denied fetching Child Accounts" ∈
        (describe_ou envC1children (some "ou-1") true).warnings) ∧
    (describe_ou envC1childrenOther (some "ou-1") true).result =
      .fail "Failed to list Child Accounts" ∧
    ((describe_ou envC1childOusDenied (some "ou-1") true).result =
        .ok (some { base := ouBaseC1, Tags := [], Parents := some [],
                    ChildAccounts := some [], ChildOus := some [],
                    AttachedPolicies := some [] }) ∧
      "Access Denied fetching Child OUs" ∈
        (describe_ou envC1childOusDenied (some "ou-1") true).warnings) ∧
    (describe_ou envC1childOusOther (some "ou-1") true).result =
      .fail "Failed to list Child OUs" ∧
    ((describe_ou envC1attachedDenied (some "ou-1") true).result =
        .ok (some { base := ouBaseC1, Tags := [], Parents := some [],
                    ChildAccounts := some [], ChildOus := some [],
                    AttachedPolicies := some ([] ++ [] ++ []) }) ∧
      "Access Denied fetching attached TAG_POLICY" ∈
        (describe_ou envC1attachedDenied (some "ou-1") true).warnings) ∧
    (describe_ou envC1attachedOther (some "ou-1") true).result =
      .fail "Failed to list attached policies" := by
  obtain ⟨h1, h2, h3, h4, h5, h6, h7, h8, h9, h10, h11, h12⟩ := c1_partial_fault_tolerance
  exact ⟨h1 envC1tagsDenied "p-1" pdC1 rfl rfl,
    h2 envC1tagsOther "p-1" pdC1 rfl rfl,
    h3 envC1targetsDenied "p-1" pdC1 [] .accessDenied rfl (Or.inl rfl) rfl,
    h4 envC1ouTags "ou-1" ouBaseC1 .accessDenied false (by decide) rfl rfl,
    h5 envC1parentsDenied "ou-1" ouBaseC1 [] [] [] (by decide) rfl rfl rfl rfl rfl
      (fun s => rfl),
    h6 envC1parentsOther "ou-1" ouBaseC1 [] (by decide) rfl rfl rfl,
    h7 envC1children "ou-1" ouBaseC1 [("k", "v")] [{ Id := "r-1" }] [] (by decide) rfl rfl
      rfl (by decide) (by decide) (fun s => rfl),
    h8 envC1childrenOther "ou-1" ouBaseC1 [] [] (by decide) rfl rfl rfl (by decide),
    h9 envC1childOusDenied "ou-1" ouBaseC1 [] [] [] (by decide) rfl rfl rfl (by decide)
      (by decide) (fun s => rfl),
    h10 envC1childOusOther "ou-1" ouBaseC1 [] [] [] (by decide) rfl rfl rfl (by decide)
      (by decide),
    h11 envC1attachedDenied "ou-1" ouBaseC1 [] [] [] [] [] [] [] (by decide) rfl rfl rfl
      rfl rfl (by decide) (by decide) (by decide) (by decide),
    h12 envC1attachedOther "ou-1" ouBaseC1 [] [] [] [] [] (by decide) rfl rfl rfl rfl rfl
      (by decide) (by decide)⟩

/-- **C2 counterexample**: in the concrete tree `r → a → b → c` (so `c`
sits at depth 3 below `r`), `list_ous` with `recurse` and `max_depth = 2`
returns `[a, b, c]`: the depth-3 OU `c` is included, refuting the claim
that the result is exactly the direct children followed by the
grandchildren with nothing deeper than depth 2. -/
theorem c2_counterexample :
    (list_ous envC2 true 2 (some "r")).result = .ok [ouA, ouB, ouC] ∧
    (list_ous envC2 true 2 (some "r")).result ≠ .ok [ouA, ouB] :=
  ⟨by decide, by decide⟩

/-- **C2** (corrected): recursion stops when `max_depth` reaches 0 but the
direct-children listing still happens there, so a call at `max_depth = d`
follows the recursive walk `depthList` that reaches descendants down to
depth `d + 1`; in particular `max_depth = 2` yields the children, the
grandchildren, and the great-grandchildren. -/
theorem c2_depth_bound :
    (∀ (f : String → List OU) (recurse : Bool) (p : String), p ≠ "" →
      (list_ous (pureOuEnv f) recurse 0 (some p)).result = .ok (f p)) ∧
    (∀ (f : String → List OU) (d : Nat) (p : String),
      (∀ q, ∀ c ∈ f q, c.Id ≠ "") → p ≠ "" →
      (list_ous (pureOuEnv f) true d (some p)).result = .ok (depthList f d p)) ∧
    (∀ (f : String → List OU) (p : String),
      depthList f 2 p =
        f p ++ (f p).flatMap (fun c => f c.Id ++ (f c.Id).flatMap (fun g => f g.Id))) := by
  refine ⟨fun f recurse p hp => ?_, fun f d p hids hp => ?_, fun f p => ?_⟩
  · rw [list_ous, resolve_parent_truthy _ _ (truthy_some p hp)]
    cases recurse <;> simp [pureOuEnv]
  · induction d generalizing p with
    | zero =>
      rw [list_ous, resolve_parent_truthy _ _ (truthy_some p hp)]
      simp [pureOuEnv, depthList]
    | succ d ih =>
      rw [list_ous, resolve_parent_truthy _ _ (truthy_some p hp)]
      have hcl := children_loop_ok
        (fun child => list_ous (pureOuEnv f) true d (some child.Id))
        (fun child => depthList f d child.Id) (f p)
        (fun c hc => ih c.Id (hids p c hc))
      simp only [pureOuEnv] at hcl ⊢
      simp [hcl, depthList]
  · simp [depthList]

/-- **C2 witness**: the concrete tree at depth 0 and depth 2, with the
unfolded three-level expansion of `depthList` at depth 2. -/
theorem c2_witness :
    (list_ous (pureOuEnv fC2) true 0 (some "r")).result = .ok (fC2 "r") ∧
    (list_ous (pureOuEnv fC2) true 2 (some "r")).result = .ok (depthList fC2 2 "r") ∧
    depthList fC2 2 "r" =
      fC2 "r" ++ (fC2 "r").flatMap
        (fun c => fC2 c.Id ++ (fC2 c.Id).flatMap (fun g => fC2 g.Id)) :=
  ⟨c2_depth_bound.1 fC2 true "r" (by decide),
   c2_depth_bound.2.1 fC2 2 "r" fC2_child_ids (by decide),
   c2_depth_bound.2.2 fC2 "r"⟩

/-- **C3 counterexample**: with one attached target whose detach answers
"not attached" and a delete answering "not found", nothing is ever
executed by the service, yet `delete_policy` (force, real mode) reports
changed — refuting "changed is true iff at least one detach call or the
delete call itself actually executed". -/
theorem c3_counterexample :
    (delete_policy envC3 false true (some "p-1")).result = .ok true ∧
    (delete_policy envC3 false true (some "p-1")).execs = [] :=
  ⟨rfl, rfl⟩

/-- **C3** (corrected): outside check mode with `force_delete`, the changed
flag is true iff the resolved target list was non-empty (each detach
attempt sets the flag, a "not attached" answer included) or the delete
call actually executed; a delete answered "not found" leaves the flag as
accumulated. -/
theorem c3_changed_iff (env : DeletePolicyEnv) (p : String) (ts : List Target) (c : Bool)
    (hts : env.listTargets = .ok ts)
    (hres : (delete_policy env false true (some p)).result = .ok c) :
    c = true ↔
      ts ≠ [] ∨ MutCall.deleteCall p ∈ (delete_policy env false true (some p)).execs := by
  simp only [delete_policy, hts] at hres ⊢
  cases ts with
  | nil =>
    simp only [List.isEmpty_nil, if_true, delete_stage] at hres ⊢
    cases hdel : env.deletePolicy with
    | ok u => simp_all
    | err e => cases e <;> simp_all [delete_fail_outcome]
  | cons t rest =>
    simp only [List.isEmpty_cons, Bool.not_true, Bool.false_eq_true, if_false] at hres ⊢
    rcases hdt : detach_targets env.detachPolicy p false (t :: rest) with ⟨o, att, ex⟩
    cases o with
    | ok changed =>
      have hch : changed = true :=
        detach_targets_nonempty_true env.detachPolicy p t rest false changed (by rw [hdt])
      subst hch
      simp only [delete_stage] at hres ⊢
      cases hdel : env.deletePolicy with
      | ok u => simp_all
      | err e =>
        cases e <;> simp_all [delete_fail_outcome] <;>
          (cases hg : (t :: rest).getLast? <;> rw [hg] at hres <;> simp at hres)
    | fail m => simp_all
    | uncaught e => simp_all

/-- **C3 witness**: a concrete forced delete with one attached target,
where both the detach and the delete execute: changed is true and the
delete call is among the executed mutations. -/
theorem c3_witness :
    (true = true ↔
      ([tgtC3] ≠ [] ∨
        MutCall.deleteCall "p-1" ∈ (delete_policy envC3w false true (some "p-1")).execs)) :=
  c3_changed_iff envC3w "p-1" [tgtC3] true rfl rfl

/-- **C4** (confirmed): the tag diff sets exactly the desired pairs whose
key is absent from the observed mapping or mapped to a different value,
and deletes exactly the observed keys absent from the desired mapping when
purging (nothing otherwise); an empty diff is a no-op with no mutating
call (so `desired = observed` with purge is idempotent), and a non-empty
diff issues the tag call before the untag call. -/
theorem c4_tag_diff (env : UpdateTagsEnv) (cm : Bool) (pid : String)
    (observed desired : TagMap) (purge : Bool)
    (hobs : env.listTags = .ok observed) :
    (∀ k v, (k, v) ∈ (compare_aws_tags observed desired purge).1 ↔
      ((k, v) ∈ desired ∧ observed.lookup k ≠ some v)) ∧
    (∀ k, k ∈ (compare_aws_tags observed desired purge).2 ↔
      (purge = true ∧ k ∈ observed.map Prod.fst ∧ desired.lookup k = none)) ∧
    ((compare_aws_tags observed desired purge).1 = [] →
      (compare_aws_tags observed desired purge).2 = [] →
      (update_policy_tags env cm pid (some desired) purge).result = .ok false ∧
      (update_policy_tags env cm pid (some desired) purge).calls = []) ∧
    ((observed.map Prod.fst).Nodup → compare_aws_tags observed observed purge = ([], [])) ∧
    (∀ ts td, compare_aws_tags observed desired purge = (ts, td) → ts ≠ [] → td ≠ [] →
      env.tagResource = .ok () → env.untagResource = .ok () →
      (update_policy_tags env false pid (some desired) purge).calls =
        [MutCall.tagCall pid ts, MutCall.untagCall pid td] ∧
      (update_policy_tags env false pid (some desired) purge).result = .ok true) := by
  refine ⟨fun k v => ?_, fun k => ?_, fun hset hdel => ?_, fun hnd => ?_,
    fun ts td hdiff hts htd htag huntag => ?_⟩
  · simp [compare_aws_tags]
  · cases purge <;> simp [compare_aws_tags, Option.isNone_iff_eq_none]
  · constructor <;> simp [update_policy_tags, hobs, hset, hdel]
  · have h1 : (compare_aws_tags observed observed purge).1 = [] := by
      simp only [compare_aws_tags]
      rw [List.filter_eq_nil_iff]
      intro kv hkv
      simp [lookup_self observed hnd kv hkv]
    have h2 : (compare_aws_tags observed observed purge).2 = [] := by
      simp only [compare_aws_tags]
      cases purge
      · rfl
      · rw [if_pos rfl, List.filter_eq_nil_iff]
        intro k hk
        simp [lookup_present observed k hk]
    calc compare_aws_tags observed observed purge
        = ((compare_aws_tags observed observed purge).1,
           (compare_aws_tags observed observed purge).2) := rfl
      _ = ([], []) := by rw [h1, h2]
  · cases ts with
    | nil => exact absurd rfl hts
    | cons t1 tsr =>
      cases td with
      | nil => exact absurd rfl htd
      | cons d1 tdr =>
        constructor <;> simp [update_policy_tags, hobs, hdiff, htag, huntag]

/-- **C4 witness**: observed `{a:1, b:2}`, desired `{a:1, c:3}`, purge on:
the diff is `({c:3}, [b])`, the idempotent re-run is empty, and the real
run issues the set call before the delete call. -/
theorem c4_witness :
    ((("c", "3") ∈ (compare_aws_tags [("a", "1"), ("b", "2")] [("a", "1"), ("c", "3")] true).1) ↔
      (("c", "3") ∈ [("a", "1"), ("c", "3")] ∧
        [("a", "1"), ("b", "2")].lookup "c" ≠ some "3")) ∧
    compare_aws_tags [("a", "1"), ("b", "2")] [("a", "1"), ("b", "2")] true = ([], []) ∧
    (update_policy_tags envC4 false "p-4" (some [("a", "1"), ("c", "3")]) true).calls =
      [MutCall.tagCall "p-4" [("c", "3")], MutCall.untagCall "p-4" ["b"]] ∧
    (update_policy_tags envC4 false "p-4" (some [("a", "1"), ("c", "3")]) true).result =
      .ok true :=
  ⟨(c4_tag_diff envC4 false "p-4" [("a", "1"), ("b", "2")] [("a", "1"), ("c", "3")] true
      rfl).1 "c" "3",
   (c4_tag_diff envC4 false "p-4" [("a", "1"), ("b", "2")] [("a", "1"), ("b", "2")] true
      rfl).2.2.2.1 (by decide),
   (c4_tag_diff envC4 false "p-4" [("a", "1"), ("b", "2")] [("a", "1"), ("c", "3")] true
      rfl).2.2.2.2 [("c", "3")] ["b"] (by decide) (by decide) (by decide) rfl rfl⟩

/-- **C5** (confirmed): `update_policy` stages nothing — reporting
`changed = false` with zero mutating calls — when every supplied attribute
matches the stored one: names and descriptions by plain string comparison
with empty/absent values never triggering, and content by JSON-semantic
comparison, so a document differing only in object key order stages no
change while a semantically different one does. -/
theorem c5_update_policy_diff :
    (∀ (env : UpdatePolicyEnv) (cm : Bool) (p : String) (name : Option String)
      (content : Option Json) (description : Option String) (detail : PolicyDetail),
      env.describePolicy = .ok detail →
      (∀ n, name = some n → n = "" ∨ n = detail.PolicySummary.Name) →
      (∀ ds, description = some ds → ds = "" ∨ ds = detail.PolicySummary.Description) →
      (∀ c, content = some c → Json.beq detail.Content.normalize c.normalize = true) →
      (update_policy env cm p name content description).result = .ok false ∧
      (update_policy env cm p name content description).calls = []) ∧
    (∀ (env : UpdatePolicyEnv) (cm : Bool) (p : String) (detail : PolicyDetail),
      env.describePolicy = .ok detail →
      detail.Content = .obj [("a", .num 1), ("b", .num 2)] →
      (update_policy env cm p none (some (.obj [("b", .num 2), ("a", .num 1)])) none).result =
        .ok false) ∧
    (∀ (env : UpdatePolicyEnv) (p : String) (detail : PolicyDetail),
      env.describePolicy = .ok detail →
      detail.Content = .obj [("a", .num 1)] →
      (update_policy env true p none (some (.obj [("a", .num 2)])) none).result = .ok true ∧
      (update_policy env true p none (some (.obj [("a", .num 2)])) none).calls = []) := by
  refine ⟨fun env cm p name content description detail hdesc hname hdescr hcont => ?_,
    fun env cm p detail hdesc hc => ?_, fun env p detail hdesc hc => ?_⟩
  · rcases name with _ | n <;> rcases description with _ | ds <;> rcases content with _ | c <;>
      [skip;
       (rcases hcont c rfl with hcb);
       (rcases hdescr ds rfl with rfl | rfl);
       (rcases hdescr ds rfl with rfl | rfl <;> rcases hcont c rfl with hcb);
       (rcases hname n rfl with rfl | rfl);
       (rcases hname n rfl with rfl | rfl <;> rcases hcont c rfl with hcb);
       (rcases hname n rfl with rfl | rfl <;> rcases hdescr ds rfl with rfl | rfl);
       (rcases hname n rfl with rfl | rfl <;> rcases hdescr ds rfl with rfl | rfl <;>
         rcases hcont c rfl with hcb)] <;>
    constructor <;>
    simp_all [update_policy, update_changes, UpdateChanges.isEmpty, compare_policies,
      show ("" : String).isEmpty = true from rfl]
  · simp only [update_policy, update_changes, hdesc, hc]
    rfl
  · simp only [update_policy, update_changes, hdesc, hc]
    exact ⟨rfl, rfl⟩

/-- **C5 witness**: matching attributes (content equal up to key order)
stage nothing; a semantic content difference reports a change in check
mode with no call issued. -/
theorem c5_witness :
    ((update_policy envC5 false "p-5" (some "N")
        (some (.obj [("b", .num 2), ("a", .num 1)])) (some "")).result = .ok false ∧
      (update_policy envC5 false "p-5" (some "N")
        (some (.obj [("b", .num 2), ("a", .num 1)])) (some "")).calls = []) ∧
    (update_policy envC5 false "p-5" none
        (some (.obj [("b", .num 2), ("a", .num 1)])) none).result = .ok false ∧
    (update_policy envC5b true "p-5" none (some (.obj [("a", .num 2)])) none).result =
      .ok true :=
  ⟨c5_update_policy_diff.1 envC5 false "p-5" (some "N")
      (some (.obj [("b", .num 2), ("a", .num 1)])) (some "") pdC5 rfl
      (fun n hn => Or.inr (by cases hn; rfl))
      (fun ds hds => Or.inl (by cases hds; rfl))
      (fun c hc => by cases hc; rfl),
   c5_update_policy_diff.2.1 envC5 false "p-5" pdC5 rfl rfl,
   (c5_update_policy_diff.2.2 envC5b "p-5" pdC5b rfl rfl).1⟩

/-- **C6** (confirmed): with at least one attachment target listed and
`force_delete` false, `delete_policy` hard-fails, the failure payload is
the full snake-cased target list, and no mutating (detach or delete) call
is issued, in or out of check mode. -/
theorem c6_attached_without_force_fails (env : DeletePolicyEnv) (check_mode : Bool)
    (p : String) (ts : List Target) (hts : env.listTargets = .ok ts) (hne : ts ≠ []) :
    (delete_policy env check_mode false (some p)).result =
      .fail ("Unable to delete policy " ++ p ++ " - still attached") ∧
    (delete_policy env check_mode false (some p)).targetsPayload =
      ts.map camel_target_to_snake ∧
    (delete_policy env check_mode false (some p)).attempts = [] := by
  cases ts with
  | nil => exact absurd rfl hne
  | cons t ts' => simp [delete_policy, hts]

/-- **C6 witness**: a concrete two-target policy deleted without force:
the failure enumerates both targets and no call is issued. -/
theorem c6_witness :
    (delete_policy envC6 false false (some "p-6")).result =
      .fail ("Unable to delete policy " ++ "p-6" ++ " - still attached") ∧
    (delete_policy envC6 false false (some "p-6")).targetsPayload =
      [tgtC6a, tgtC6b].map camel_target_to_snake ∧
    (delete_policy envC6 false false (some "p-6")).attempts = [] :=
  c6_attached_without_force_fails envC6 false "p-6" [tgtC6a, tgtC6b] rfl (by decide)

/-- **C7** (confirmed): with a falsy parent argument, `list_ous` resolves
the organization Root: zero roots or more than one root hard-fail with the
respective disambiguation message and no OU listing is performed, and
exactly one root resolves to that root's identifier as the parent. -/
theorem c7_root_resolution (env : OuEnv) (parent : Option String) (recurse : Bool) (d : Nat)
    (hfalsy : truthy parent = false) :
    (env.listRoots = .ok [] →
      (list_ous env recurse d parent).result =
        .fail "Unable to list Organization Roots, a parent must be specified" ∧
      (list_ous env recurse d parent).ouListCalls = []) ∧
    (∀ (r1 r2 : Root) (rest : List Root), env.listRoots = .ok (r1 :: r2 :: rest) →
      (list_ous env recurse d parent).result =
        .fail "Found multiple Organization Roots, a parent must be specified" ∧
      (list_ous env recurse d parent).ouListCalls = []) ∧
    (∀ root : Root, env.listRoots = .ok [root] →
      resolve_parent env parent = .inr root.Id) := by
  refine ⟨fun h => ?_, fun r1 r2 rest h => ?_, fun root h => ?_⟩
  · rw [list_ous_resolve_fail env recurse d parent _ (resolve_parent_zero env parent hfalsy h)]
    exact ⟨rfl, rfl⟩
  · rw [list_ous_resolve_fail env recurse d parent _
      (resolve_parent_multi env parent r1 r2 rest hfalsy h)]
    exact ⟨rfl, rfl⟩
  · simp [resolve_parent, hfalsy, list_roots, h]

/-- **C7 witness**: concrete zero-root and two-root environments fail with
no listing call; a single-root environment resolves that root. -/
theorem c7_witness :
    ((list_ous envC7zero false 5 none).result =
        .fail "Unable to list Organization Roots, a parent must be specified" ∧
      (list_ous envC7zero false 5 none).ouListCalls = []) ∧
    ((list_ous envC7multi false 5 none).result =
        .fail "Found multiple Organization Roots, a parent must be specified" ∧
      (list_ous envC7multi false 5 none).ouListCalls = []) ∧
    resolve_parent envC7one none = .inr rootC7.Id :=
  ⟨(c7_root_resolution envC7zero none false 5 rfl).1 rfl,
   ⟨((c7_root_resolution envC7multi none false 5 rfl).2.1 rootC7 rootC7b [] rfl).1,
    ((c7_root_resolution envC7multi none false 5 rfl).2.1 rootC7 rootC7b [] rfl).2⟩,
   (c7_root_resolution envC7one none false 5 rfl).2.2 rootC7 rfl⟩

/-- **C8** (confirmed): in check mode none of the four operations issues a
mutating call, and the changed flag each reports agrees with what the same
diff logic reports on a successful real run against the same service
responses (for the delete protocol, under the consistency assumption that
the delete call is not answered "not found", i.e. no concurrent deletion
between the target listing and the delete). -/
theorem c8_check_mode_frame :
    (∀ (env : UpdatePolicyEnv) (p : String) (name : Option String) (content : Option Json)
      (description : Option String),
      (update_policy env true p name content description).calls = [] ∧
      (∀ b, (update_policy env false p name content description).result = .ok b →
        (update_policy env true p name content description).result = .ok b)) ∧
    (∀ (env : CreatePolicyEnv) (n : String) (c : Json) (pt : Option String) (ds : String)
      (tags : Option TagMap),
      (create_policy env true n c pt ds tags).calls = [] ∧
      (∀ b i, (create_policy env false n c pt ds tags).result = .ok (b, i) →
        (create_policy env true n c pt ds tags).result = .ok (true, none) ∧ b = true)) ∧
    (∀ (env : UpdateTagsEnv) (pid : String) (tags : Option TagMap) (purge : Bool),
      (update_policy_tags env true pid tags purge).calls = [] ∧
      (∀ b, (update_policy_tags env false pid tags purge).result = .ok b →
        (update_policy_tags env true pid tags purge).result = .ok b)) ∧
    (∀ (env : DeletePolicyEnv) (fd : Bool) (pol : Option String),
      (delete_policy env true fd pol).attempts = [] ∧
      (env.deletePolicy ≠ .err .policyNotFound →
        ∀ b, (delete_policy env false fd pol).result = .ok b →
          (delete_policy env true fd pol).result = .ok b)) := by
  refine ⟨fun env p name content description => ⟨?_, fun b hb => ?_⟩,
    fun env n c pt ds tags => ⟨rfl, fun b i hb => ?_⟩,
    fun env pid tags purge => ⟨?_, fun b hb => ?_⟩,
    fun env fd pol => ⟨?_, fun hne b hb => ?_⟩⟩
  · cases h : env.describePolicy with
    | err e => simp [update_policy, h]
    | ok detail =>
      simp only [update_policy, h]
      split <;> rfl
  · cases h : env.describePolicy with
    | err e => simp [update_policy, h] at hb
    | ok detail =>
      simp only [update_policy, h] at hb ⊢
      cases hemp : (update_changes detail name content description).isEmpty <;>
        simp only [hemp, Bool.false_eq_true, if_false, if_true] at hb ⊢
      · cases hupd : env.updatePolicy <;> simp_all
      · exact hb
  · cases hcr : env.createPolicy with
    | err e => simp [create_policy, hcr] at hb
    | ok created =>
      cases htag : env.tagResource <;> simp_all [create_policy]
  · cases tags with
    | none => rfl
    | some t =>
      cases h : env.listTags with
      | err e => simp [update_policy_tags, h]
      | ok old =>
        simp only [update_policy_tags, h]
        split <;> rfl
  · cases tags with
    | none => simp [update_policy_tags] at hb ⊢; exact hb
    | some t =>
      cases h : env.listTags with
      | err e => simp [update_policy_tags, h] at hb
      | ok old =>
        simp only [update_policy_tags, h] at hb ⊢
        rcases hd : compare_aws_tags old t purge with ⟨ts, td⟩
        simp only [hd] at hb ⊢
        cases hempty : (td.isEmpty && ts.isEmpty) <;>
          simp only [hempty, Bool.false_eq_true, if_false, if_true] at hb ⊢
        · cases hts : ts.isEmpty <;> cases htag : env.tagResource <;>
            cases htd : td.isEmpty <;> cases hun : env.untagResource <;>
            simp_all
        · exact hb
  · cases pol with
    | none => rfl
    | some p =>
      cases h : env.listTargets with
      | ok ts =>
        cases ts with
        | nil => simp [delete_policy, h, delete_stage]
        | cons t rest => cases fd <;> simp [delete_policy, h, delete_stage]
      | err e => cases e <;> simp [delete_policy, h, delete_stage]
  · cases pol with
    | none =>
      simp only [delete_policy] at hb ⊢
      exact hb
    | some p =>
      cases h : env.listTargets with
      | err e =>
        cases e <;> simp_all only [delete_policy, delete_stage] <;>
          first
            | exact hb
            | (cases hdel : env.deletePolicy with
                | ok u => simp_all
                | err e2 =>
                  cases e2 <;> simp_all [delete_fail_outcome]
                    <;> exact absurd hdel hne)
            | simp_all
      | ok ts =>
        cases ts with
        | nil =>
          simp_all only [delete_policy, delete_stage]
          cases hdel : env.deletePolicy with
          | ok u => simp_all
          | err e2 =>
            cases e2 <;> simp_all [delete_fail_outcome] <;> exact absurd hdel hne
        | cons t rest =>
          cases fd with
          | false => simp_all [delete_policy]
          | true =>
            simp only [delete_policy, h, List.isEmpty_cons, Bool.not_true,
              Bool.false_eq_true, if_false, if_true] at hb ⊢
            rcases hdt : detach_targets env.detachPolicy p false (t :: rest) with ⟨o, att, ex⟩
            cases o with
            | ok changed =>
              have hch : changed = true :=
                detach_targets_nonempty_true env.detachPolicy p t rest false changed
                  (by rw [hdt])
              subst hch
              simp only [delete_stage] at hb
              cases hdel : env.deletePolicy with
              | ok u => simp_all
              | err e2 =>
                cases e2 <;> simp_all [delete_fail_outcome] <;>
                  first
                    | exact absurd hdel hne
                    | (cases hg : (t :: rest).getLast? <;> rw [hg] at hb <;> simp at hb)
            | fail m => simp_all
            | uncaught e2 => simp_all

/-- **C8 witness**: concrete check-mode runs of all four operations issue
no mutating call and report the same changed flag as the matching real
runs. -/
theorem c8_witness :
    ((update_policy envC8upd true "p-8" (some "N8") none none).calls = [] ∧
      (update_policy envC8upd true "p-8" (some "N8") none none).result = .ok false) ∧
    ((create_policy envC8create true "N8" (.obj []) none "D8" none).calls = [] ∧
      ((create_policy envC8create true "N8" (.obj []) none "D8" none).result =
          .ok (true, none) ∧ true = true)) ∧
    ((update_policy_tags envC8tags true "p-8" (some [("a", "1")]) true).calls = [] ∧
      (update_policy_tags envC8tags true "p-8" (some [("a", "1")]) true).result =
        .ok true) ∧
    ((delete_policy envC8del true false (some "p-8")).attempts = [] ∧
      (delete_policy envC8del true false (some "p-8")).result = .ok true) :=
  ⟨⟨(c8_check_mode_frame.1 envC8upd "p-8" (some "N8") none none).1,
    (c8_check_mode_frame.1 envC8upd "p-8" (some "N8") none none).2 false rfl⟩,
   ⟨(c8_check_mode_frame.2.1 envC8create "N8" (.obj []) none "D8" none).1,
    (c8_check_mode_frame.2.1 envC8create "N8" (.obj []) none "D8" none).2 true
      (some "p-8") rfl⟩,
   ⟨(c8_check_mode_frame.2.2.1 envC8tags "p-8" (some [("a", "1")]) true).1,
    (c8_check_mode_frame.2.2.1 envC8tags "p-8" (some [("a", "1")]) true).2 true rfl⟩,
   ⟨(c8_check_mode_frame.2.2.2 envC8del false (some "p-8")).1,
    (c8_check_mode_frame.2.2.2 envC8del false (some "p-8")).2 (by decide) true rfl⟩⟩

/-- **C9** (confirmed): when the service returns zero policies of the
requested type, both `list_policies` and `find_policy_by_name` hard-fail
with the fixed message instead of returning an empty list, so a by-name
lookup can never report "no match" against a policy-free organization. -/
theorem c9_empty_listing_hard_fails (env : ListPoliciesEnv) (policy_type : Option String)
    (name : String) (h : env.listPolicies (TYPE_MAPPING policy_type) = .ok []) :
    list_policies env policy_type =
      .fail "Failed to list policies - Policies missing from returned value." ∧
    find_policy_by_name env name policy_type =
      .fail "Failed to list policies - Policies missing from returned value." := by
  constructor <;> simp [list_policies, find_policy_by_name, h]

/-- **C9 witness**: the concrete empty-organization environment. -/
theorem c9_witness :
    list_policies envC9 none =
      .fail "Failed to list policies - Policies missing from returned value." ∧
    find_policy_by_name envC9 "X" none =
      .fail "Failed to list policies - Policies missing from returned value." :=
  c9_empty_listing_hard_fails envC9 none "X" rfl

/-- **C10** (confirmed): `normalize_roots` on a non-empty list returns the
singleton normalization of the *last* root (the append sits outside the
loop); on the empty list it raises an unbound-local error; hence the
multiple-roots failure of `list_ous` reports only one of the roots it
found. -/
theorem c10_normalize_roots_last_only :
    (∀ (roots : List Root) (r : Root), roots.getLast? = some r →
      normalize_roots roots = .ok [camel_root_to_snake r]) ∧
    normalize_roots [] = .uncaught .other ∧
    (∀ (env : OuEnv) (r1 r2 : Root) (recurse : Bool) (d : Nat),
      env.listRoots = .ok [r1, r2] →
        (list_ous env recurse d none).result =
          .fail "Found multiple Organization Roots, a parent must be specified" ∧
        (list_ous env recurse d none).rootsPayload = [camel_root_to_snake r2]) := by
  refine ⟨fun roots r h => ?_, rfl, fun env r1 r2 recurse d h => ?_⟩
  · simp only [normalize_roots]
    rw [foldl_last_some camel_root_to_snake roots r none h]
  · rw [list_ous_resolve_fail env recurse d none _
      (resolve_parent_multi env none r1 r2 [] rfl h)]
    exact ⟨rfl, by simp [normalize_roots]⟩

/-- **C10 witness**: a concrete two-root list normalizes to just the
second root, and the two-root disambiguation failure carries just that
root as payload. -/
theorem c10_witness :
    normalize_roots [rootC10a, rootC10b] = .ok [camel_root_to_snake rootC10b] ∧
    (list_ous envC10 false 5 none).rootsPayload = [camel_root_to_snake rootC10b] :=
  ⟨c10_normalize_roots_last_only.1 [rootC10a, rootC10b] rootC10b rfl,
   (c10_normalize_roots_last_only.2.2 envC10 rootC10a rootC10b false 5 rfl).2⟩

end Org
